import Mathlib

/-!
Verification of the conversation-state synchronization engine of the
`ai-chatbot` frontend (Next.js client in `frontend/src`).

The embedding below translates the relevant TypeScript into Lean:
JavaScript strings become `String` / `List Char` with the exact semantics
of the string methods used (`trim`, `replace(/\s+/g, " ")`, `slice`,
`lastIndexOf`, truthiness of `""` and `0`), React component state becomes
explicit record types, and each async handler becomes a pure function from
the pre-state (plus the eventual network result and clock readings) to the
post-state.  Handlers that contain an `await` are additionally split into
a synchronous start phase and a resolve phase so that interleavings of two
in-flight operations can be expressed.
-/

namespace Chatbot

/-! ## JavaScript primitives -/

/-- The whitespace class matched by JS `\s` / removed by `String.trim`
(restricted to the characters that can occur in our inputs). -/
def isWsChar (c : Char) : Bool :=
  c = ' ' ∨ c = '\t' ∨ c = '\n' ∨ c = '\r'

/-- JS `String.prototype.trim`. -/
def jsTrim (s : String) : String :=
  ⟨((s.data.dropWhile isWsChar).reverse.dropWhile isWsChar).reverse⟩

/-- Worker for JS `replace(/\s+/g, " ")`: every maximal run of whitespace
characters becomes a single space.  The flag records whether the previous
character was part of a whitespace run. -/
def collapseWsGo : Bool → List Char → List Char
  | _, [] => []
  | prev, c :: rest =>
    if isWsChar c then
      if prev then collapseWsGo true rest else ' ' :: collapseWsGo true rest
    else c :: collapseWsGo false rest

/-- JS `s.replace(/\s+/g, " ")`. -/
def collapseWs (s : String) : String :=
  ⟨collapseWsGo false s.data⟩

/-- Worker for JS `lastIndexOf(" ")`: returns the greatest index holding a
space, `-1` when there is none (the JS convention). -/
def lastSpaceIdxAux : List Char → Nat → Int → Int
  | [], _, acc => acc
  | c :: rest, i, acc =>
    lastSpaceIdxAux rest (i + 1) (if c = ' ' then Int.ofNat i else acc)

/-- JS `head.lastIndexOf(" ")`. -/
def lastSpaceIdx (l : List Char) : Int :=
  lastSpaceIdxAux l 0 (-1)

/-- JS `a || b` on an optional string `a`: the empty string is falsy. -/
def jsOrS : Option String → String → String
  | some s, d => if s = "" then d else s
  | none, d => d

/-- JS `x || d` on a number `x` in `Nat` range: `0` is falsy. -/
def jsOrNat (x d : Nat) : Nat :=
  if x = 0 then d else x

/-! ## Data model (from `frontend/src/types/api.ts`) -/

/-- Message role. -/
inductive Role
  | user
  | assistant
deriving DecidableEq

/-- `answer_type` of a chat response. -/
inductive AnswerType
  | grounded
  | abstained
  | fallback
deriving DecidableEq

/-- Citation attached to an assistant answer (fields used by rendering). -/
structure SourceRef where
  id : String
  title : Option String := none
  preview : Option String := none
  category : Option String := none
  confidence_bucket : Option String := none
deriving DecidableEq

/-- Opaque metrics payload of a chat response. -/
structure ChatMetrics where
  raw : Nat
deriving DecidableEq

/-- A conversation session as cached in the session list.  Timestamps are
abstracted to `Nat` clock readings. -/
structure ChatSession where
  id : Nat
  title : Option String := none
  is_active : Bool := true
  message_count : Nat := 0
  assistant_message_count : Nat := 0
  last_message_at : Option Nat := none
  user_id : Nat := 0
  created_at : Nat := 0
  updated_at : Nat := 0
deriving DecidableEq

/-- A transcript entry: the `ChatTurn = HistoryItem & Partial<Message>`
union shape of `ChatInterface.tsx` (minimal history item plus the optional
RAG fields an optimistic send fills in). -/
structure ChatTurn where
  id : Nat
  role : Role
  content : String
  created_at : Nat
  sources : List SourceRef := []
  answer_type : Option AnswerType := none
  retrieval_stats : Option ChatMetrics := none
  error_type : Option String := none
deriving DecidableEq

/-- Response of `POST /chat` (`ChatResponse` in `types/api.ts`). -/
structure ChatResponse where
  answer : String
  answer_type : AnswerType
  message_id : Option Nat := none
  session_id : Option Nat := none
  sources : List SourceRef := []
  metrics : Option ChatMetrics := none
deriving DecidableEq

/-- The shape of a caught axios error as the handlers read it:
`err?.response?.data?.detail` and `err?.message`. -/
structure JsErr where
  detail : Option String := none
  message : Option String := none
deriving DecidableEq

/-- Lifecycle state of the conversation view (`ViewState` in
`ChatInterface.tsx`). -/
inductive ViewState
  | booting
  | switching
  | ready
deriving DecidableEq

/-- The React state of `ChatInterface` plus the persisted
`active_session_id` slot it writes through `saveActiveSessionId`. -/
structure UIState where
  viewState : ViewState
  messages : List ChatTurn
  currentMessage : String
  isLoading : Bool
  currentSession : Option ChatSession
  sessions : List ChatSession
  error : String
  sidebarOpen : Bool
  lastActiveId : Option Nat
deriving DecidableEq

/-- Initial component state (the `useState` initializers). -/
def initState : UIState :=
  { viewState := .booting
    messages := []
    currentMessage := ""
    isLoading := false
    currentSession := none
    sessions := []
    error := ""
    sidebarOpen := false
    lastActiveId := none }

/-! ## Title inference (`makeTitleCandidate`, `ChatInterface.tsx`) -/

/-- `makeTitleCandidate` from `ChatInterface.tsx`: trim, collapse
whitespace, truncate to 60 characters at the last space when that space is
at index ≥ 30, capitalize the first character; empty input yields
"New chat". -/
def makeTitleCandidate (raw : String) : String :=
  let candidate := collapseWs (jsTrim raw)
  let candidate :=
    if candidate.length > 60 then
      let head := candidate.data.take 60
      let cut := lastSpaceIdx head
      if cut ≥ 30 then (⟨head.take cut.toNat⟩ : String) else ⟨head⟩
    else candidate
  match candidate.data with
  | [] => "New chat"
  | c :: rest => ⟨c.toUpper :: rest⟩

/-! ## Optimistic send pipeline (`sendMessage`, `ChatInterface.tsx`)

`sendMessage` is split at its `await chatApi.sendMessage(...)` point into
`sendStart` (everything before the network round-trip, returning the
request it issues, if any) and `sendResolve` (the `then`/`catch`/`finally`
continuation applied to the settled network result).  `sendMessage`
composes the two, which is the behaviour when no other event interleaves.
`t0` is the `Date.now()` reading taken at the top of the handler (also
used as the temporary user-turn id) and `t1` the reading taken when the
call settles. -/

/-- The network request issued by a send: `chatApi.sendMessage(text, sessionId)`. -/
structure NetSend where
  sessionId : Nat
  text : String
deriving DecidableEq

/-- The JS truthiness test
`!currentSession.title || currentSession.title.toLowerCase() === "new chat"`. -/
def titlePlaceholder : Option String → Bool
  | none => true
  | some s => s = "" ∨ s.toLower = "new chat"

/-- The optimistic user turn appended before the network call. -/
def mkUserTurn (content : String) (t0 : Nat) : ChatTurn :=
  { id := t0, role := .user, content := content, created_at := t0 }

/-- The assistant turn appended on success.  JS `resp.message_id || tempUserId + 1`
falls back to the local id when `message_id` is absent or `0` (falsy). -/
def mkAssistantTurn (resp : ChatResponse) (t0 t1 : Nat) : ChatTurn :=
  { id := match resp.message_id with
          | some m => if m = 0 then t0 + 1 else m
          | none => t0 + 1
    role := .assistant
    content := resp.answer
    created_at := t1
    sources := resp.sources
    answer_type := some resp.answer_type
    retrieval_stats := resp.metrics }

/-- The assistant turn appended on failure: locally generated id
`Date.now() + 1`, the fixed apology text, and the client-side error marker
`error_type = "frontend_error"`. -/
def mkErrorTurn (t1 : Nat) : ChatTurn :=
  { id := t1 + 1
    role := .assistant
    content := "Sorry, I encountered an error. Please try again."
    created_at := t1
    error_type := some "frontend_error" }

/-- Element-wise form of the optimistic title write into the session
list: only the entry matching the captured current session id is
retitled. -/
def retitleSession (candidate : String) (curId : Nat) (c : ChatSession) : ChatSession :=
  if c.id = curId then { c with title := some candidate } else c

/-- The optimistic title update: when the captured current session's title
is a placeholder, both the current-session copy and the matching entry of
the session list get the inferred title. -/
def applyTitleUpdate (s : UIState) (cur : ChatSession) : UIState :=
  if titlePlaceholder cur.title then
    let candidate := makeTitleCandidate s.currentMessage
    { s with
      currentSession := s.currentSession.map fun c => { c with title := some candidate }
      sessions := s.sessions.map (retitleSession candidate cur.id) }
  else s

/-- Synchronous prefix of `sendMessage`: the guard
`if (!currentMessage.trim() || !currentSession || isLoading) return;`,
the optimistic user turn, the optimistic title update, clearing the input,
raising the in-flight flag, clearing the error, and issuing the request. -/
def sendStart (s : UIState) (t0 : Nat) : UIState × Option NetSend :=
  match s.currentSession with
  | none => (s, none)
  | some cur =>
    if jsTrim s.currentMessage = "" ∨ s.isLoading then (s, none)
    else
      let s1 := { s with messages := s.messages ++ [mkUserTurn s.currentMessage t0] }
      let s2 := applyTitleUpdate s1 cur
      ({ s2 with currentMessage := "", isLoading := true, error := "" },
        some { sessionId := cur.id, text := s.currentMessage })

/-- The session-list "recency nudge" on success: the entry matching the
captured current session id gets `(count || 0) + 2` / `(count || 0) + 1`
and fresh timestamps; every other entry is returned as-is. -/
def nudgeSession (curId t1 : Nat) (c : ChatSession) : ChatSession :=
  if c.id = curId then
    { c with
      message_count := jsOrNat c.message_count 0 + 2
      assistant_message_count := jsOrNat c.assistant_message_count 0 + 1
      last_message_at := some t1
      updated_at := t1 }
  else c

/-- Continuation of `sendMessage` after the network call settles.  On
success the assistant turn is appended and the session list nudged; on
failure the error text is computed by the JS `||` chain and the fixed
error turn appended; in both cases the in-flight flag is cleared. -/
def sendResolve (s : UIState) (cur : ChatSession) (t0 t1 : Nat)
    (res : Except JsErr ChatResponse) : UIState :=
  match res with
  | .ok resp =>
    { s with
      messages := s.messages ++ [mkAssistantTurn resp t0 t1]
      sessions := s.sessions.map (nudgeSession cur.id t1)
      isLoading := false }
  | .error e =>
    { s with
      error := jsOrS e.detail (jsOrS e.message "Failed to send message. Please try again.")
      messages := s.messages ++ [mkErrorTurn t1]
      isLoading := false }

/-- A complete, un-interleaved run of the `sendMessage` handler. -/
def sendMessage (s : UIState) (t0 t1 : Nat) (res : Except JsErr ChatResponse) : UIState :=
  match s.currentSession with
  | none => s
  | some cur =>
    if jsTrim s.currentMessage = "" ∨ s.isLoading then s
    else sendResolve (sendStart s t0).1 cur t0 t1 res

/-! ## Boot (the mount effect of `ChatInterface.tsx`) -/

/-- Environment of one boot run: the persisted `active_session_id`
(`loadActiveSessionId`) and the results of the remote calls the effect may
make. -/
structure BootEnv where
  preferred : Option Nat
  listResult : Except JsErr (List ChatSession)
  createResult : Except JsErr ChatSession
  historyResult : Nat → Except JsErr (List ChatTurn)

/-- `if (preferred) { selected = list.find((s) => s.id === preferred) ?? null }`:
the stored id is consulted only when truthy (`0` and `null` are falsy). -/
def findPreferred (list : List ChatSession) : Option Nat → Option ChatSession
  | none => none
  | some p => if p = 0 then none else list.find? fun s => s.id = p

/-- Session-selection phase of the boot effect: which session ends up
selected and what the session list is at that point, or the error that
interrupted the flow.  On the `createResult` error path the session list
had been set to the (empty) fetched list, which equals the initial `[]`. -/
def bootSelects (env : BootEnv) : Except JsErr (List ChatSession × ChatSession) :=
  match env.listResult with
  | .error e => .error e
  | .ok list =>
    match findPreferred list env.preferred with
    | some sel => .ok (list, sel)
    | none =>
      match list with
      | s :: _ => .ok (list, s)
      | [] =>
        match env.createResult with
        | .error e => .error e
        | .ok c => .ok ([c], c)

/-- The boot effect, run from the initial component state.  Every path —
including every exception path of the single `catch` — ends in `ready`;
the transcript is populated only on full success. -/
def boot (env : BootEnv) : UIState :=
  match bootSelects env with
  | .error e =>
    { initState with
      error := jsOrS e.detail (jsOrS e.message "Failed to load sessions")
      viewState := .ready }
  | .ok (list, sel) =>
    let s1 := { initState with
                sessions := list
                currentSession := some sel
                lastActiveId := some sel.id }
    match env.historyResult sel.id with
    | .ok h => { s1 with messages := h, viewState := .ready }
    | .error e =>
      { s1 with
        error := jsOrS e.detail (jsOrS e.message "Failed to load sessions")
        viewState := .ready }

/-! ## Session switching (`selectSession`, `ChatInterface.tsx`)

Split at its `await chatApi.getChatHistory(session.id)` point, exactly
like the send pipeline, so that a switch racing another switch can be
expressed.  Crucially, the resolve phase applies the fetched history
without comparing it to the then-current session: the continuation after
the `await` is just `setMessages(history); setViewState("ready")`. -/

/-- Synchronous prefix of `selectSession`: the idempotence guard
`currentSession?.id === session.id`, entering `switching`, clearing the
error, repointing the current session, persisting it, and issuing the
history request (identified by the target session id). -/
def selectStart (s : UIState) (sess : ChatSession) : UIState × Option Nat :=
  if s.currentSession.map (fun c => c.id) = some sess.id then
    ({ s with sidebarOpen := false }, none)
  else
    ({ s with
       sidebarOpen := false
       viewState := .switching
       error := ""
       currentSession := some sess
       lastActiveId := some sess.id },
      some sess.id)

/-- Continuation of `selectSession` after its history fetch settles: on
success the transcript is swapped to the fetched history; on failure the
error text is reported and the transcript emptied; either way the state
becomes `ready`.  No staleness check is performed. -/
def selectResolve (s : UIState) (hist : Except JsErr (List ChatTurn)) : UIState :=
  match hist with
  | .ok h => { s with messages := h, viewState := .ready }
  | .error e =>
    { s with
      error := jsOrS e.detail (jsOrS e.message "Failed to load chat history")
      messages := []
      viewState := .ready }

/-- A complete, un-interleaved run of `selectSession`. -/
def selectSession (s : UIState) (sess : ChatSession)
    (hist : Except JsErr (List ChatTurn)) : UIState :=
  match selectStart s sess with
  | (s1, none) => s1
  | (s1, some _) => selectResolve s1 hist

/-! ## Identity store and logout (`lib/auth.tsx`, `lib/api.ts`) -/

/-- The durable `localStorage` slots the client uses. -/
structure Storage where
  auth_token : Option String
  session_id : Option String
  active_session_id : Option String
deriving DecidableEq

/-- React state of the `AuthProvider`. -/
structure AuthState where
  isAuthenticated : Bool
  userId : Option Nat
  email : Option String
deriving DecidableEq

/-- Modelled from the spec: `authApi.logout` is invoked by `logout()` in
`frontend/src/lib/auth.tsx` but `authApi` itself is not among the provided
sources (`frontend/src/lib/api.ts` defines only `chatApi` and
`ensureSessionId`).  Spec §6: "`logout()` is purely local (clears
credential, retains anonymous identity)" — it removes the persisted bearer
credential, keeps the anonymous session token, and issues no network
request (the second component lists the remote calls made: none). -/
def authApiLogout (st : Storage) : Storage × List String :=
  ({ st with auth_token := none }, [])

/-- `logout` of the `AuthProvider`: calls `authApi.logout()` and resets the
in-memory auth state to anonymous, deliberately leaving `session_id` in
storage so anonymous chat history stays visible. -/
def logout (st : Storage) : AuthState × Storage × List String :=
  let (st2, calls) := authApiLogout st
  ({ isAuthenticated := false, userId := none, email := none }, st2, calls)

/-! ## Feedback controller (`handleFeedback`, `MessageBubble.tsx`) -/

/-- Per-bubble React state: the displayed feedback value and the
single-flight flag. -/
structure BubbleState where
  feedback : Option Int
  submittingFeedback : Bool
deriving DecidableEq

/-- The network request issued by a feedback submission:
`chatApi.submitFeedback(messageId, value)`. -/
structure FeedbackCall where
  messageId : Nat
  value : Int
deriving DecidableEq

/-- `handleFeedback`: the guard
`if (submittingFeedback || !message.id || isUser) return;` (an id of `0`
is falsy), then the remote call; on success the displayed value becomes
the submitted one (`null` when clearing with `0`), on failure it is left
untouched; the single-flight flag is cleared in the `finally`.  Returns
the new bubble state and the list of requests issued. -/
def handleFeedback (msg : ChatTurn) (b : BubbleState) (value : Int)
    (remote : Except JsErr Unit) : BubbleState × List FeedbackCall :=
  if b.submittingFeedback ∨ msg.id = 0 ∨ msg.role = .user then (b, [])
  else
    match remote with
    | .ok _ =>
      ({ feedback := if value = 0 then none else some value
         submittingFeedback := false },
        [{ messageId := msg.id, value := value }])
    | .error _ =>
      ({ b with submittingFeedback := false },
        [{ messageId := msg.id, value := value }])

/-! ## Source rendering (`MessageBubble.tsx`, enhanced variant) -/

/-- JS `Array.prototype.slice(start, stop)` on a source list (non-negative
arguments). -/
def jsSlice (l : List SourceRef) (start stop : Nat) : List SourceRef :=
  (l.drop start).take (stop - start)

/-- `visibleSources = (sources ?? []).slice(0, 5)`: only the top five
sources are ever rendered. -/
def visibleSources (sources : List SourceRef) : List SourceRef :=
  jsSlice sources 0 5

/-- The sources header text:
`{visibleSources.length}{sources.length > 5 ? " of n" : ""} most relevant source(s)`. -/
def sourcesHeaderText (sources : List SourceRef) : String :=
  toString (visibleSources sources).length
    ++ (if sources.length > 5 then " of " ++ toString sources.length else "")
    ++ " most relevant source"
    ++ (if (visibleSources sources).length ≠ 1 then "s" else "")

/-! ## Concrete fixtures used by counterexamples and witnesses -/

/-- A session with id 1 (all other fields at their defaults). -/
def sessA : ChatSession := { id := 1 }

/-- A session with id 2. -/
def sessB : ChatSession := { id := 2 }

/-- A second session in witness states, with cached counters. -/
def sessC : ChatSession :=
  { id := 3, title := some "Billing questions", message_count := 4,
    assistant_message_count := 2 }

/-- Session 1's (non-empty) server history. -/
def histA : List ChatTurn :=
  [{ id := 7, role := .user, content := "hello from session one", created_at := 5 }]

/-- Session 2's (empty) server history. -/
def histB : List ChatTurn := []

/-- The end state of the interleaving `selectSession(sessA)`,
`selectSession(sessB)`, session 2's history resolves, then session 1's
late history resolves. -/
def c1FinalState : UIState :=
  selectResolve
    (selectResolve
      (selectStart (selectStart { initState with viewState := .ready } sessA).1 sessB).1
      (.ok histB))
    (.ok histA)

/-- A ready state with a current session, another session in the list,
and a typed (not yet sent) input. -/
def wState : UIState :=
  { initState with
    viewState := .ready
    currentSession := some sessA
    sessions := [sessA, sessC]
    currentMessage := " hello there " }

/-- A state whose input is whitespace-only (a blocked send). -/
def blockedState : UIState :=
  { initState with
    viewState := .ready
    currentSession := some sessA
    sessions := [sessA]
    currentMessage := "   " }

/-- A concrete remote failure carrying a human-readable detail. -/
def errBoom : JsErr := { detail := some "backend down" }

/-- A successful chat response with a nonzero server message id. -/
def okResp : ChatResponse :=
  { answer := "sure", answer_type := .grounded, message_id := some 42 }

/-- A successful chat response whose server message id is `0` — JS-falsy. -/
def c6Resp : ChatResponse :=
  { answer := "the answer", answer_type := .grounded, message_id := some 0 }

/-- A ready state used to drive the failing send of the C6/C7
counterexamples. -/
def c6State : UIState :=
  { initState with
    viewState := .ready
    currentSession := some sessA
    sessions := [sessA]
    currentMessage := "hello" }

/-- A boot environment where the session list resolves but the history
fetch of the selected session fails. -/
def bootEnvFail : BootEnv :=
  { preferred := none
    listResult := .ok [sessA]
    createResult := .ok sessA
    historyResult := fun _ => .error { detail := none, message := none } }

/-- A user turn with a real id (feedback on it must be rejected). -/
def userTurnFix : ChatTurn :=
  { id := 9, role := .user, content := "what are the fees?", created_at := 1 }

/-- An assistant turn with a real server id. -/
def asstTurnFix : ChatTurn :=
  { id := 5, role := .assistant, content := "the fees are low", created_at := 2 }

/-- A bubble with no recorded feedback and nothing in flight. -/
def bubble0 : BubbleState := { feedback := none, submittingFeedback := false }

/-! ## General lemmas about the embedding -/

/-- The JS `||` chain never yields the empty string when its final
fallback is non-empty. -/
theorem jsOrS_ne_empty (o : Option String) (d : String) (hd : d ≠ "") :
    jsOrS o d ≠ "" := by
  cases o with
  | none => simpa [jsOrS] using hd
  | some s =>
    by_cases hs : s = "" <;> simp [jsOrS, hs, hd]

/-- `x || 0` is just `x` for a `Nat`. -/
theorem jsOrNat_zero (x : Nat) : jsOrNat x 0 = x := by
  by_cases h : x = 0 <;> simp [jsOrNat, h]

/-- The session list after the optimistic title update, element-wise. -/
theorem applyTitleUpdate_sessions (s : UIState) (cur : ChatSession) :
    (applyTitleUpdate s cur).sessions
      = if titlePlaceholder cur.title then
          s.sessions.map (retitleSession (makeTitleCandidate s.currentMessage) cur.id)
        else s.sessions := by
  unfold applyTitleUpdate
  split <;> simp_all

/-- Retitling preserves the id and both cached counters of an entry. -/
theorem retitleSession_counts (candidate : String) (curId : Nat) (c : ChatSession) :
    (retitleSession candidate curId c).id = c.id ∧
    (retitleSession candidate curId c).message_count = c.message_count ∧
    (retitleSession candidate curId c).assistant_message_count = c.assistant_message_count := by
  unfold retitleSession
  split <;> simp

/-- Retitling leaves entries of other sessions untouched. -/
theorem retitleSession_other (candidate : String) (curId : Nat) (c : ChatSession)
    (h : c.id ≠ curId) : retitleSession candidate curId c = c := by
  simp [retitleSession, h]

/-- The nudge leaves entries of other sessions untouched. -/
theorem nudgeSession_other (curId t1 : Nat) (c : ChatSession) (h : c.id ≠ curId) :
    nudgeSession curId t1 c = c := by
  simp [nudgeSession, h]

/-- A send whose in-flight flag is already raised is rejected outright. -/
theorem sendStart_of_isLoading (s : UIState) (t : Nat) (h : s.isLoading = true) :
    sendStart s t = (s, none) := by
  unfold sendStart
  cases s.currentSession <;> simp [h]

/-! ## Claim theorems -/

/-- C1: the code does NOT perform the staleness check the claim describes.
Interleave `selectSession(session 1)` with `selectSession(session 2)` and
let session 1's history response arrive last: `selectResolve` applies it
unconditionally (`setMessages(history)` with no comparison against the
currently-selected session id), so session 1's transcript ends up
displayed while session 2 is the current session — the late response is
not discarded.  This evaluates the embedded code at the failing input of
the recorded code bug. -/
theorem C1_stale_history_applied :
    c1FinalState.currentSession = some sessB ∧
    c1FinalState.viewState = .ready ∧
    c1FinalState.messages = histA ∧
    histA ≠ histB := by
  refine ⟨rfl, rfl, rfl, by decide⟩

/-- C2: for every storage state holding a credential, `logout()` clears
the persisted bearer credential, leaves the persisted anonymous session
token (and the last-active-session slot) unchanged, makes no network
call, and resets the in-memory auth state to anonymous.  (`authApi.logout`
is modelled from the spec, see `authApiLogout`.) -/
theorem C2_logout_purely_local (st : Storage) (t : String)
    (_h : st.auth_token = some t) :
    (logout st).2.1.auth_token = none ∧
    (logout st).2.1.session_id = st.session_id ∧
    (logout st).2.1.active_session_id = st.active_session_id ∧
    (logout st).2.2 = [] ∧
    (logout st).1.isAuthenticated = false := by
  simp [logout, authApiLogout]

/-- Witness for C2 at a concrete storage state with a credential. -/
theorem C2_logout_purely_local_witness :
    (Storage.mk (some "tok") (some "anon-123") (some "5")).auth_token = some "tok" ∧
    ((logout (Storage.mk (some "tok") (some "anon-123") (some "5"))).2.1.auth_token = none ∧
     (logout (Storage.mk (some "tok") (some "anon-123") (some "5"))).2.1.session_id = some "anon-123" ∧
     (logout (Storage.mk (some "tok") (some "anon-123") (some "5"))).2.1.active_session_id = some "5" ∧
     (logout (Storage.mk (some "tok") (some "anon-123") (some "5"))).2.2 = [] ∧
     (logout (Storage.mk (some "tok") (some "anon-123") (some "5"))).1.isAuthenticated = false) :=
  ⟨rfl, C2_logout_purely_local (Storage.mk (some "tok") (some "anon-123") (some "5")) "tok" rfl⟩

/-- C4 counterexample: on the P4 input the title inference does NOT
produce the claimed string — the code capitalizes only the first
character and never lower-cases the rest, so "YOUR" keeps its original
casing. -/
theorem C4_title_counterexample :
    makeTitleCandidate "  what are YOUR transfer   limits please help me understand the fees involved today now  "
      ≠ "What are your transfer limits please help me understand the" := by
  decide

/-- C4 (amended): on the P4 input the inferred title is exactly
"What are YOUR transfer limits please help me understand the" —
whitespace collapsed and trimmed, truncated at the last space of the
60-character head (index 59 ≥ 30), first character capitalized, original
casing of the remaining characters preserved. -/
theorem C4_title_inference :
    makeTitleCandidate "  what are YOUR transfer   limits please help me understand the fees involved today now  "
      = "What are YOUR transfer limits please help me understand the" := by
  decide

/-- C3: when the remote call of a non-blocked send fails, the optimistic
user turn is not rolled back — the final transcript is the prior
transcript, then the user turn, then exactly one assistant turn carrying
the client-side error marker `frontend_error` and the fixed apology text;
the failure detail is surfaced as the reported error, and the in-flight
flag is cleared. -/
theorem C3_send_failure_keeps_user_turn (s : UIState) (cur : ChatSession)
    (t0 t1 : Nat) (e : JsErr)
    (hc : s.currentSession = some cur)
    (ht : jsTrim s.currentMessage ≠ "")
    (hl : s.isLoading = false) :
    (sendMessage s t0 t1 (.error e)).messages
      = s.messages ++ [mkUserTurn s.currentMessage t0, mkErrorTurn t1] ∧
    (mkErrorTurn t1).role = .assistant ∧
    (mkErrorTurn t1).error_type = some "frontend_error" ∧
    (mkErrorTurn t1).content = "Sorry, I encountered an error. Please try again." ∧
    (∀ d : String, e.detail = some d → d ≠ "" →
      (sendMessage s t0 t1 (.error e)).error = d) ∧
    (sendMessage s t0 t1 (.error e)).error ≠ "" ∧
    (sendMessage s t0 t1 (.error e)).isLoading = false := by
  have hred : sendMessage s t0 t1 (.error e)
      = sendResolve (sendStart s t0).1 cur t0 t1 (.error e) := by
    simp [sendMessage, hc, ht, hl]
  have hmsg : (sendStart s t0).1.messages
      = s.messages ++ [mkUserTurn s.currentMessage t0] := by
    by_cases hp : titlePlaceholder cur.title = true <;>
      simp [sendStart, applyTitleUpdate, hc, ht, hl, hp]
  refine ⟨?_, rfl, rfl, rfl, ?_, ?_, ?_⟩
  · rw [hred]
    simp [sendResolve, hmsg]
  · intro d hd hd0
    rw [hred]
    simp [sendResolve, jsOrS, hd, hd0]
  · rw [hred]
    exact jsOrS_ne_empty _ _ (jsOrS_ne_empty _ _ (by decide))
  · rw [hred]
    simp [sendResolve]

/-- C5: booting and switching both degrade to `ready` on failure.  Every
boot run ends in `ready`; a boot whose history fetch (or whose
session-list phase) fails ends with an empty transcript and a non-empty
error; a switch to a non-current session whose history fetch fails ends
`ready` with an empty transcript and a non-empty error, so a mismatched
transcript is never left on screen. -/
theorem C5_failure_resolves_ready :
    (∀ env : BootEnv, (boot env).viewState = .ready) ∧
    (∀ (env : BootEnv) (list : List ChatSession) (sel : ChatSession) (e : JsErr),
      bootSelects env = .ok (list, sel) →
      env.historyResult sel.id = .error e →
      (boot env).messages = [] ∧ (boot env).error ≠ "") ∧
    (∀ (env : BootEnv) (e : JsErr),
      bootSelects env = .error e →
      (boot env).messages = [] ∧ (boot env).error ≠ "") ∧
    (∀ (s : UIState) (sess : ChatSession) (e : JsErr),
      s.currentSession.map (fun c => c.id) ≠ some sess.id →
      (selectSession s sess (.error e)).viewState = .ready ∧
      (selectSession s sess (.error e)).messages = [] ∧
      (selectSession s sess (.error e)).error ≠ "") := by
  refine ⟨?_, ?_, ?_, ?_⟩
  · intro env
    unfold boot
    cases h : bootSelects env with
    | error e => simp
    | ok p =>
      obtain ⟨list, sel⟩ := p
      cases hh : env.historyResult sel.id <;> simp [hh]
  · intro env list sel e hsel hh
    unfold boot
    rw [hsel]
    simp only [hh]
    exact ⟨rfl, jsOrS_ne_empty _ _ (jsOrS_ne_empty _ _ (by decide))⟩
  · intro env e hsel
    unfold boot
    rw [hsel]
    exact ⟨rfl, jsOrS_ne_empty _ _ (jsOrS_ne_empty _ _ (by decide))⟩
  · intro s sess e hne
    unfold selectSession selectStart
    rw [if_neg hne]
    exact ⟨rfl, rfl, jsOrS_ne_empty _ _ (jsOrS_ne_empty _ _ (by decide))⟩

/-- C6 counterexample: a server response whose `message_id` is `0` is a
possible response (`message_id?: number`), yet the appended assistant
turn gets the locally generated fallback id `tempUserId + 1 = 101`, not
the server-provided id `0` — because `resp.message_id || tempUserId + 1`
treats `0` as falsy.  The claim's "for every possible server response" is
therefore false. -/
theorem C6_zero_id_counterexample :
    c6Resp.message_id = some 0 ∧
    (sendMessage c6State 100 200 (.ok c6Resp)).messages.map (fun t => t.id)
      = [100, 101] ∧
    (101 : Nat) ≠ 0 := by decide

/-- C6 (amended): whenever the remote call succeeds and the server
provides a nonzero (JS-truthy) message id, the appended assistant turn's
id is exactly that id. -/
theorem C6_assistant_id_from_server (s : UIState) (cur : ChatSession)
    (t0 t1 : Nat) (resp : ChatResponse) (m : Nat)
    (hc : s.currentSession = some cur)
    (ht : jsTrim s.currentMessage ≠ "")
    (hl : s.isLoading = false)
    (hm : resp.message_id = some m) (hm0 : m ≠ 0) :
    (sendMessage s t0 t1 (.ok resp)).messages
      = s.messages ++ [mkUserTurn s.currentMessage t0, mkAssistantTurn resp t0 t1] ∧
    (mkAssistantTurn resp t0 t1).id = m ∧
    (mkAssistantTurn resp t0 t1).content = resp.answer ∧
    (mkAssistantTurn resp t0 t1).role = .assistant := by
  refine ⟨?_, by simp [mkAssistantTurn, hm, hm0], rfl, rfl⟩
  have hmsg : (sendStart s t0).1.messages
      = s.messages ++ [mkUserTurn s.currentMessage t0] := by
    by_cases hp : titlePlaceholder cur.title = true <;>
      simp [sendStart, applyTitleUpdate, hc, ht, hl, hp]
  simp [sendMessage, hc, ht, hl, sendResolve, hmsg]

/-- C7 counterexample: the assistant error turn appended by a failed send
carries the locally generated temporary id `Date.now() + 1` (here `201` —
no server ever assigned it), yet `handleFeedback` does NOT reject it: the
guard `!message.id` only rejects a falsy id, so a network call with the
temporary id is issued.  The claim's "rejected whenever the target lacks
a real non-temporary id" is therefore false. -/
theorem C7_temp_id_counterexample :
    (sendMessage c6State 100 200 (.error { detail := some "boom" })).messages.getLast?
      = some (mkErrorTurn 200) ∧
    (mkErrorTurn 200).id = 201 ∧
    (mkErrorTurn 200).role = .assistant ∧
    (handleFeedback (mkErrorTurn 200)
        { feedback := none, submittingFeedback := false } 1 (.ok ())).2
      = [{ messageId := 201, value := 1 }] := by decide

/-- C7 (amended): `submit(messageId, value)` is rejected as a complete
no-op (no network call, no state change) whenever the target is a user
turn, its id is absent/zero (JS-falsy — a truthy locally generated
temporary id is NOT detected), or a submission for that message is in
flight; and whenever the remote call fails the displayed feedback value
is unchanged (no optimistic mutation before server confirmation). -/
theorem C7_feedback_guard (msg : ChatTurn) (b : BubbleState) (v : Int)
    (r : Except JsErr Unit) :
    ((b.submittingFeedback = true ∨ msg.id = 0 ∨ msg.role = .user) →
      handleFeedback msg b v r = (b, [])) ∧
    (∀ e : JsErr, r = .error e →
      (handleFeedback msg b v r).1.feedback = b.feedback) := by
  constructor
  · intro h
    simp [handleFeedback, h]
  · intro e he
    subst he
    by_cases h : b.submittingFeedback = true ∨ msg.id = 0 ∨ msg.role = .user
    · simp [handleFeedback, h]
    · simp [handleFeedback, h]

/-- C8: a send is a complete no-op — state (hence transcript, session
list, and in-flight flag) unchanged and no network request issued — when
the input is empty/whitespace-only, no session is current, or a send is
already in flight; and when a send does go through, it issues exactly one
request and appends exactly one optimistic user turn, after which a
second send started while the first is in flight is a complete no-op. -/
theorem C8_send_noop_and_single_flight (s : UIState) (t0 u0 : Nat) :
    ((jsTrim s.currentMessage = "" ∨ s.currentSession = none ∨ s.isLoading = true) →
      sendStart s t0 = (s, none)) ∧
    (∀ cur : ChatSession, s.currentSession = some cur →
      jsTrim s.currentMessage ≠ "" → s.isLoading = false →
      (sendStart s t0).2 = some { sessionId := cur.id, text := s.currentMessage } ∧
      (sendStart s t0).1.messages = s.messages ++ [mkUserTurn s.currentMessage t0] ∧
      (sendStart s t0).1.isLoading = true ∧
      sendStart (sendStart s t0).1 u0 = ((sendStart s t0).1, none)) := by
  constructor
  · rintro (h | h | h)
    · unfold sendStart
      cases s.currentSession <;> simp [h]
    · simp [sendStart, h]
    · exact sendStart_of_isLoading s t0 h
  · intro cur hc ht hl
    have h1 : (sendStart s t0).1.isLoading = true := by
      by_cases hp : titlePlaceholder cur.title = true <;>
        simp [sendStart, applyTitleUpdate, hc, ht, hl, hp]
    refine ⟨?_, ?_, h1, sendStart_of_isLoading _ u0 h1⟩
    · simp [sendStart, hc, ht, hl]
    · by_cases hp : titlePlaceholder cur.title = true <;>
        simp [sendStart, applyTitleUpdate, hc, ht, hl, hp]

/-- C9: when the remote call of a non-blocked send succeeds, the session
list keeps its length, the entry of the captured current session has its
cached counters bumped by exactly +2 (total) and +1 (assistant), and
every entry of a different session is returned entirely unchanged. -/
theorem C9_counter_nudge (s : UIState) (cur : ChatSession) (t0 t1 : Nat)
    (resp : ChatResponse)
    (hc : s.currentSession = some cur)
    (ht : jsTrim s.currentMessage ≠ "")
    (hl : s.isLoading = false) :
    (sendMessage s t0 t1 (.ok resp)).sessions.length = s.sessions.length ∧
    (∀ (i : Nat) (c : ChatSession), s.sessions.get? i = some c → c.id ≠ cur.id →
      (sendMessage s t0 t1 (.ok resp)).sessions.get? i = some c) ∧
    (∀ (i : Nat) (c : ChatSession), s.sessions.get? i = some c → c.id = cur.id →
      ∃ d : ChatSession,
        (sendMessage s t0 t1 (.ok resp)).sessions.get? i = some d ∧
        d.message_count = c.message_count + 2 ∧
        d.assistant_message_count = c.assistant_message_count + 1) := by
  have hsess : (sendMessage s t0 t1 (.ok resp)).sessions
      = ((applyTitleUpdate
            { s with messages := s.messages ++ [mkUserTurn s.currentMessage t0] }
            cur).sessions).map (nudgeSession cur.id t1) := by
    simp [sendMessage, hc, ht, hl, sendStart, sendResolve]
  rw [applyTitleUpdate_sessions] at hsess
  by_cases hp : titlePlaceholder cur.title = true
  · rw [if_pos hp] at hsess
    refine ⟨?_, ?_, ?_⟩
    · rw [hsess]; simp
    · intro i c hi hne
      rw [hsess, List.get?_map, List.get?_map, hi]
      simp [retitleSession_other _ _ _ hne, nudgeSession_other _ _ _ hne]
    · intro i c hi hid
      rw [hsess, List.get?_map, List.get?_map, hi]
      refine ⟨_, rfl, ?_, ?_⟩
      · have hidr : (retitleSession (makeTitleCandidate s.currentMessage) cur.id c).id
            = cur.id := by
          rw [(retitleSession_counts _ _ _).1, hid]
        simp [nudgeSession, hidr, jsOrNat_zero, (retitleSession_counts _ _ _).2.1]
      · have hidr : (retitleSession (makeTitleCandidate s.currentMessage) cur.id c).id
            = cur.id := by
          rw [(retitleSession_counts _ _ _).1, hid]
        simp [nudgeSession, hidr, jsOrNat_zero, (retitleSession_counts _ _ _).2.2]
  · rw [if_neg hp] at hsess
    refine ⟨?_, ?_, ?_⟩
    · rw [hsess]; simp
    · intro i c hi hne
      rw [hsess, List.get?_map, hi]
      simp [nudgeSession_other _ _ _ hne]
    · intro i c hi hid
      rw [hsess, List.get?_map, hi]
      exact ⟨_, rfl, by simp [nudgeSession, hid, jsOrNat_zero],
        by simp [nudgeSession, hid, jsOrNat_zero]⟩

/-- C10: the renderer shows exactly the first `min 5 n` sources in their
original order (`visibleSources` is a `take`, so nothing beyond the fifth
source is ever rendered, and the expanded list maps over `visibleSources`
only), and the header reports the visible count, adding "of n" exactly
when `n > 5`. -/
theorem C10_visible_sources (l : List SourceRef) :
    visibleSources l = l.take 5 ∧
    (visibleSources l).length = min 5 l.length ∧
    sourcesHeaderText l
      = toString (min 5 l.length)
        ++ (if 5 < l.length then " of " ++ toString l.length else "")
        ++ " most relevant source"
        ++ (if min 5 l.length ≠ 1 then "s" else "") := by
  refine ⟨rfl, ?_, ?_⟩
  · simp [visibleSources, jsSlice]
  · simp [sourcesHeaderText, visibleSources, jsSlice]

/-! ## Witnesses: the hypothesised claim theorems evaluated at concrete
inputs -/

/-- Witness for C3: a failing send from `wState` keeps the optimistic
user turn, appends the fixed error turn, surfaces the failure detail
"backend down", and clears the in-flight flag. -/
theorem C3_send_failure_keeps_user_turn_witness :
    wState.currentSession = some sessA ∧
    (sendMessage wState 10 20 (.error errBoom)).messages
      = wState.messages ++ [mkUserTurn wState.currentMessage 10, mkErrorTurn 20] ∧
    (sendMessage wState 10 20 (.error errBoom)).error = "backend down" ∧
    (sendMessage wState 10 20 (.error errBoom)).isLoading = false := by
  have h := C3_send_failure_keeps_user_turn wState sessA 10 20 errBoom rfl
    (by decide) rfl
  exact ⟨rfl, h.1, h.2.2.2.2.1 "backend down" rfl (by decide), h.2.2.2.2.2.2⟩

/-- Witness for C5: the concrete boot whose history fetch fails ends
`ready` with an empty transcript and a non-empty error, and so does a
concrete failing switch. -/
theorem C5_failure_resolves_ready_witness :
    bootSelects bootEnvFail = .ok ([sessA], sessA) ∧
    (boot bootEnvFail).viewState = .ready ∧
    (boot bootEnvFail).messages = [] ∧
    (boot bootEnvFail).error ≠ "" ∧
    (selectSession wState sessB (.error errBoom)).viewState = .ready ∧
    (selectSession wState sessB (.error errBoom)).messages = [] ∧
    (selectSession wState sessB (.error errBoom)).error ≠ "" := by
  have h := C5_failure_resolves_ready
  have h2 := h.2.1 bootEnvFail [sessA] sessA { detail := none, message := none }
    rfl rfl
  have h4 := h.2.2.2 wState sessB errBoom (by decide)
  exact ⟨rfl, h.1 bootEnvFail, h2.1, h2.2, h4.1, h4.2.1, h4.2.2⟩

/-- Witness for C6 (amended): with server message id 42 the appended
assistant turn's id is 42. -/
theorem C6_assistant_id_from_server_witness :
    okResp.message_id = some 42 ∧
    (sendMessage wState 10 20 (.ok okResp)).messages
      = wState.messages
          ++ [mkUserTurn wState.currentMessage 10, mkAssistantTurn okResp 10 20] ∧
    (mkAssistantTurn okResp 10 20).id = 42 := by
  have h := C6_assistant_id_from_server wState sessA 10 20 okResp 42 rfl
    (by decide) rfl rfl (by decide)
  exact ⟨rfl, h.1, h.2.1⟩

/-- Witness for C7 (amended): feedback on a user turn is a complete
no-op, and a failing submission on an assistant turn leaves the displayed
value `none`. -/
theorem C7_feedback_guard_witness :
    handleFeedback userTurnFix bubble0 1 (.error errBoom) = (bubble0, []) ∧
    (handleFeedback asstTurnFix bubble0 1 (.error errBoom)).1.feedback = none := by
  have h1 := (C7_feedback_guard userTurnFix bubble0 1 (.error errBoom)).1
    (Or.inr (Or.inr rfl))
  have h2 := (C7_feedback_guard asstTurnFix bubble0 1 (.error errBoom)).2
    errBoom rfl
  exact ⟨h1, h2⟩

/-- Witness for C8: a whitespace-only send is a complete no-op, and a
send from `wState` issues one request, appends one optimistic user turn,
and makes a second send during flight a complete no-op. -/
theorem C8_send_noop_and_single_flight_witness :
    sendStart blockedState 10 = (blockedState, none) ∧
    (sendStart wState 10).2 = some { sessionId := 1, text := " hello there " } ∧
    (sendStart wState 10).1.messages
      = wState.messages ++ [mkUserTurn wState.currentMessage 10] ∧
    sendStart (sendStart wState 10).1 11 = ((sendStart wState 10).1, none) := by
  have h0 := (C8_send_noop_and_single_flight blockedState 10 11).1
    (Or.inl (by decide))
  have h := (C8_send_noop_and_single_flight wState 10 11).2 sessA rfl
    (by decide) rfl
  exact ⟨h0, h.1, h.2.1, h.2.2.2⟩

/-- Witness for C9: after a successful send from `wState`, the other
session `sessC` (id 3) is untouched and the current session's counters
are bumped by +2/+1. -/
theorem C9_counter_nudge_witness :
    (sendMessage wState 10 20 (.ok okResp)).sessions.length = 2 ∧
    (sendMessage wState 10 20 (.ok okResp)).sessions.get? 1 = some sessC ∧
    (∃ d : ChatSession,
      (sendMessage wState 10 20 (.ok okResp)).sessions.get? 0 = some d ∧
      d.message_count = sessA.message_count + 2 ∧
      d.assistant_message_count = sessA.assistant_message_count + 1) := by
  have h := C9_counter_nudge wState sessA 10 20 okResp rfl (by decide) rfl
  exact ⟨h.1.trans rfl, h.2.1 1 sessC rfl (by decide), h.2.2 0 sessA rfl rfl⟩

end Chatbot
